import Mathlib

/-!
Verification of the music-converter-cli repository.

The Python sources are shallowly embedded: pure functions become Lean
functions; the effectful parts of `MusicConverter.process_file` and of the
per-file loop in `music-converter.py` are modelled by an explicit
environment (`FsEnv`) recording the outcome of each external call together
with a trace of the file-system effects performed.
-/

namespace MusicConverterCli

/-- ASCII lowercasing, embedding Python's `str.lower()` on the ASCII codec
strings the program compares. -/
def pyLower (s : String) : String :=
  String.mk (s.data.map Char.toLower)

/-- The `action` field of `ConversionResult`; the dataclass documents it as
one of `'converted'`, `'copied'`, `'error'` (converter.py line 19). -/
inductive Action
  | converted
  | copied
  | error
  deriving DecidableEq, BEq, Repr

/-- Embedding of the `AudioInfo` dataclass (converter.py lines 36-43).
`duration` is a decimal reported by ffprobe, modelled exactly as a rational. -/
structure AudioInfo where
  codec : String
  bitrate : Option Nat
  sample_rate : Option Nat
  duration : Option Rat
  channels : Option Nat
  deriving DecidableEq, Repr

/-- A file-system path: directory components plus a file name. -/
structure PyPath where
  dirs : List String
  name : String
  deriving DecidableEq, Repr

/-- Embedding of the `ConversionResult` dataclass (converter.py lines 14-23).
`source_format` is the info dict built by `process_file`: `none` models the
empty dict `{}` of the exception path. -/
structure ConversionResult where
  source_path : PyPath
  target_path : PyPath
  action : Action
  source_size : Nat
  target_size : Nat
  source_format : Option AudioInfo
  error_message : Option String
  deriving DecidableEq, Repr

/-- The source-codec list of the lossy-to-lossy branch, verbatim from
converter.py line 137: `['mp3', 'aac', 'mp3', 'wma', 'ogg']`
(note the duplicated `'mp3'`; `'opus'` is absent). -/
def lossySourceCodecs : List String := ["mp3", "aac", "mp3", "wma", "ogg"]

/-- The target-codec list of the lossy-to-lossy branch, verbatim from
converter.py line 137. -/
def lossyTargetCodecs : List String := ["mp3", "aac", "opus", "wma", "ogg"]

/-- Embedding of `MusicConverter.needs_conversion` (converter.py lines
124-161).  Python's `audio_info.bitrate if audio_info.bitrate else 0`
treats both `None` and `0` as `0`, which `Option.getD 0` captures; the
float expression `abs(...) / source_bitrate * 100` is modelled exactly
over `Rat`. -/
def needs_conversion (audio_info : AudioInfo) (target_codec : String)
    (target_bitrate : Nat) : Bool :=
  let source_codec := pyLower audio_info.codec
  let source_bitrate : Nat := audio_info.bitrate.getD 0
  let target_bitrate_bps : Nat := target_bitrate * 1000
  if source_codec ≠ pyLower target_codec then
    if source_codec = "flac" then
      true
    else if source_codec ∈ lossySourceCodecs ∧
        pyLower target_codec ∈ lossyTargetCodecs then
      let bitrate_diff_percent : Rat :=
        if source_bitrate > 0 then
          (((source_bitrate : Int) - (target_bitrate_bps : Int)).natAbs : Rat)
            / (source_bitrate : Rat) * 100
        else 0
      if bitrate_diff_percent < 10 then false else true
    else
      true
  else
    if source_bitrate > target_bitrate_bps then true
    else if source_bitrate < target_bitrate_bps then false
    else false

/-- Embedding of `MusicConverter.FORMAT_EXTENSIONS` (converter.py lines
53-58), as an association list mirroring the Python dict. -/
def FORMAT_EXTENSIONS : List (String × String) :=
  [("mp3", ".mp3"), ("aac", ".m4a"), ("flac", ".flac"), ("opus", ".opus")]

/-- Split a character list at its LAST `'.'`: returns the characters before
that dot and those after it, or `none` when no dot occurs.  Helper for the
embedding of `pathlib.PurePath.with_suffix`. -/
def splitLastDot : List Char → Option (List Char × List Char)
  | [] => none
  | c :: cs =>
    match splitLastDot cs with
    | some (pre, suf) => some (c :: pre, suf)
    | none => if c = '.' then some ([], cs) else none

/-- Embedding of `pathlib.PurePath.with_suffix` on a file name: pathlib
recognises a suffix only when the last dot is neither the first nor the
last character of the name; the recognised suffix is replaced by `ext`,
otherwise `ext` is appended. -/
def withSuffix (file_name : String) (ext : String) : String :=
  match splitLastDot file_name.data with
  | some (pre, suf) =>
    if pre ≠ [] ∧ suf ≠ [] then String.mk pre ++ ext
    else file_name ++ ext
  | none => file_name ++ ext

/-- Embedding of `MusicConverter.build_ffmpeg_command` (converter.py lines
163-195).  Python raises `ValueError(f"Unsupported target codec: ...")`
for other codecs, modelled as `Except.error`. -/
def build_ffmpeg_command (input_path output_path : String)
    (target_codec : String) (target_bitrate : Nat) :
    Except String (List String) :=
  let base_cmd := ["ffmpeg", "-i", input_path, "-y"]
  let codec_cmd : Except String (List String) :=
    if pyLower target_codec = "mp3" then
      Except.ok (base_cmd ++ ["-c:a", "libmp3lame", "-b:a", toString target_bitrate ++ "k"])
    else if pyLower target_codec = "aac" then
      Except.ok (base_cmd ++ ["-c:a", "aac", "-b:a", toString target_bitrate ++ "k"]
        ++ ["-c:v", "copy"])
    else if pyLower target_codec = "flac" then
      Except.ok (base_cmd ++ ["-c:a", "flac", "-compression_level", "8"])
    else if pyLower target_codec = "opus" then
      Except.ok (base_cmd ++ ["-c:a", "libopus", "-b:a", toString target_bitrate ++ "k"])
    else
      Except.error ("Unsupported target codec: " ++ target_codec)
  match codec_cmd with
  | Except.error e => Except.error e
  | Except.ok cmd =>
    let cmd := cmd ++ ["-map_metadata", "0"]
    let cmd := if pyLower target_codec = "aac" then
        cmd ++ ["-movflags", "+faststart"] ++ ["-f", "mp4"]
      else cmd
    Except.ok (cmd ++ [output_path])

/-- The exceptions the body of `process_file` can raise: the three
`ValueError`s of `get_audio_info` (converter.py lines 101, 120, 122) and an
`OSError` from `mkdir`; `message` is Python's `str(e)` for each. -/
inductive PyError
  | probeAnalyzeFailed (stderr : String)
  | probeParseFailed (msg : String)
  | noAudioStream
  | mkdirFailed (errno : Nat) (strerror : String)
  deriving DecidableEq, Repr

/-- Python's `str(e)` for each modelled exception. -/
def PyError.message : PyError → String
  | probeAnalyzeFailed stderr => "Failed to analyze audio file: " ++ stderr
  | probeParseFailed m => "Failed to parse ffprobe output: " ++ m
  | noAudioStream => "No audio stream found in file"
  | mkdirFailed errno strerror => "[Errno " ++ (toString errno ++ ("] " ++ strerror))

/-- File-system effects performed by per-file processing; `runFfmpegEncode`
and `copyFileBytes` create the output file under the target directory. -/
inductive Effect
  | probeInput
  | mkdirOutputParent
  | runFfmpegEncode
  | copyFileBytes
  | applyMetadata
  deriving DecidableEq, Repr

/-- Outcomes of the external calls made while processing one file: the
ffprobe result, the input's size, whether `mkdir` raises, whether ffmpeg /
`shutil.copy2` succeed, and the produced output's size. -/
structure FsEnv where
  probe : Except PyError AudioInfo
  input_size : Nat
  mkdir_error : Option PyError
  ffmpeg_ok : Bool
  copy_ok : Bool
  output_size : Nat
  deriving Repr

/-- Embedding of `MusicConverter.process_file` (converter.py lines 228-290)
on an input `source_dir ++ rel_dirs / file_name`: probes the input, derives
the output path under `target_dir` by substituting the target codec's
extension (dict `.get` default `'.' + codec`), creates the parent
directory, then converts or copies according to `needs_conversion`; any
raised exception is caught and packed into an error result whose
`target_path` is the input path.  Also returns the trace of file-system
effects performed. -/
def process_file (env : FsEnv) (source_dir target_dir rel_dirs : List String)
    (file_name : String) (target_codec : String) (target_bitrate : Nat) :
    ConversionResult × List Effect :=
  let input_path : PyPath := ⟨source_dir ++ rel_dirs, file_name⟩
  match env.probe with
  | Except.error e =>
    ({ source_path := input_path, target_path := input_path,
       action := Action.error, source_size := env.input_size,
       target_size := 0, source_format := none,
       error_message := some e.message },
     [Effect.probeInput])
  | Except.ok audio_info =>
    let source_size := env.input_size
    let target_ext :=
      (FORMAT_EXTENSIONS.lookup (pyLower target_codec)).getD ("." ++ target_codec)
    let output_path : PyPath := ⟨target_dir ++ rel_dirs, withSuffix file_name target_ext⟩
    match env.mkdir_error with
    | some e =>
      ({ source_path := input_path, target_path := input_path,
         action := Action.error, source_size := env.input_size,
         target_size := 0, source_format := none,
         error_message := some e.message },
       [Effect.probeInput, Effect.mkdirOutputParent])
    | none =>
      let needs_conversion_result := needs_conversion audio_info target_codec target_bitrate
      let success := if needs_conversion_result then env.ffmpeg_ok else env.copy_ok
      let action :=
        if success then
          (if needs_conversion_result then Action.converted else Action.copied)
        else Action.error
      let target_size := if success then env.output_size else 0
      ({ source_path := input_path, target_path := output_path,
         action := action, source_size := source_size,
         target_size := target_size, source_format := some audio_info,
         error_message :=
           if success then none
           else some (if needs_conversion_result then "Conversion failed" else "Copy failed") },
       [Effect.probeInput, Effect.mkdirOutputParent,
        if needs_conversion_result then Effect.runFfmpegEncode else Effect.copyFileBytes])

/-- Embedding of the per-file handling of `main` (music-converter.py lines
118-168): `process_file` is submitted unconditionally (line 122), and
metadata is applied afterwards exactly when the result is `converted` and
`dry_run` is off (line 134). -/
def mainHandleFile (dry_run : Bool) (env : FsEnv)
    (source_dir target_dir rel_dirs : List String)
    (file_name target_codec : String) (target_bitrate : Nat) :
    ConversionResult × List Effect :=
  let pr := process_file env source_dir target_dir rel_dirs file_name target_codec target_bitrate
  if pr.1.action = Action.converted ∧ ¬ dry_run then
    (pr.1, pr.2 ++ [Effect.applyMetadata])
  else
    (pr.1, pr.2)

/-- Values of the statistics dict: Python ints and floats (floats modelled
exactly as rationals). -/
inductive StatVal
  | int (i : Int)
  | rat (q : Rat)
  deriving DecidableEq, Repr

/-- `len([r for r in results if r.action == 'converted'])` (converter.py line 308). -/
def countConverted (results : List ConversionResult) : Nat :=
  (results.filter (fun r => decide (r.action = Action.converted))).length

/-- `len([r for r in results if r.action == 'copied'])` (converter.py line 309). -/
def countCopied (results : List ConversionResult) : Nat :=
  (results.filter (fun r => decide (r.action = Action.copied))).length

/-- `len([r for r in results if r.action == 'error'])` (converter.py line 310). -/
def countErrors (results : List ConversionResult) : Nat :=
  (results.filter (fun r => decide (r.action = Action.error))).length

/-- `sum(r.source_size for r in results)` (converter.py line 312). -/
def totalSourceSize (results : List ConversionResult) : Nat :=
  (results.map (fun r => r.source_size)).sum

/-- `sum(r.target_size for r in results)` (converter.py line 313). -/
def totalTargetSize (results : List ConversionResult) : Nat :=
  (results.map (fun r => r.target_size)).sum

/-- Embedding of `MusicConverter.get_statistics` (converter.py lines
302-325), the dict modelled as an association list; an empty result list
yields the empty dict (line 305).  The percentage is a float (here an
exact rational) in the positive branch and the int `0` otherwise, as in
the Python expression. -/
def get_statistics (results : List ConversionResult) : List (String × StatVal) :=
  if results = [] then []
  else
    let total_source_size := totalSourceSize results
    let total_target_size := totalTargetSize results
    let space_saved : Int := (total_source_size : Int) - (total_target_size : Int)
    [("total", StatVal.int results.length),
     ("converted", StatVal.int (countConverted results)),
     ("copied", StatVal.int (countCopied results)),
     ("errors", StatVal.int (countErrors results)),
     ("total_source_size", StatVal.int total_source_size),
     ("total_target_size", StatVal.int total_target_size),
     ("space_saved", StatVal.int space_saved),
     ("space_saved_percentage",
      if 0 < total_source_size then
        StatVal.rat ((space_saved : Rat) / (total_source_size : Rat) * 100)
      else StatVal.int 0)]

/-- The zero-valued statistics dict the CLI builds itself
(music-converter.py lines 184-193). -/
def cliZeroStats : List (String × StatVal) :=
  [("total", StatVal.int 0),
   ("converted", StatVal.int 0),
   ("copied", StatVal.int 0),
   ("errors", StatVal.int 0),
   ("total_source_size", StatVal.int 0),
   ("total_target_size", StatVal.int 0),
   ("space_saved", StatVal.int 0),
   ("space_saved_percentage", StatVal.int 0)]

/-- Embedding of the statistics selection in `main` (music-converter.py
lines 178-193): `get_statistics` when there are results, otherwise the
hand-built zero dict. -/
def mainStats (results : List ConversionResult) : List (String × StatVal) :=
  if results = [] then cliZeroStats else get_statistics results

/-! Helper lemmas shared by the claim theorems. -/

theorem string_data_append (a b : String) : (a ++ b).data = a.data ++ b.data := rfl

theorem string_of_data_nil (s : String) (h : s.data = []) : s = "" := by
  cases s with
  | mk d => rw [show d = [] from h]

theorem string_mk_data (s : String) : String.mk s.data = s := rfl

theorem string_append_ne_empty (a b : String) (ha : a ≠ "") : a ++ b ≠ "" := by
  intro h
  apply ha
  apply string_of_data_nil
  have hd := congrArg String.data h
  rw [string_data_append] at hd
  exact (List.append_eq_nil.mp hd).1

theorem pyError_message_ne_empty (e : PyError) : e.message ≠ "" := by
  cases e with
  | probeAnalyzeFailed stderr => exact string_append_ne_empty _ _ (by decide)
  | probeParseFailed m => exact string_append_ne_empty _ _ (by decide)
  | noAudioStream => decide
  | mkdirFailed errno strerror => exact string_append_ne_empty _ _ (by decide)

theorem counts_sum (results : List ConversionResult) :
    countConverted results + countCopied results + countErrors results =
      results.length := by
  induction results with
  | nil => rfl
  | cons r rs ih =>
    unfold countConverted countCopied countErrors at *
    cases ha : r.action <;> simp [List.filter_cons, ha] <;> omega

theorem splitLastDot_of_no_dot (l : List Char) (h : '.' ∉ l) :
    splitLastDot l = none := by
  induction l with
  | nil => rfl
  | cons c cs ih =>
    simp only [List.mem_cons, not_or] at h
    rw [splitLastDot, ih h.2]
    exact if_neg (fun hh => h.1 hh.symm)

theorem splitLastDot_append (stem e : List Char) (he : '.' ∉ e) :
    splitLastDot (stem ++ '.' :: e) = some (stem, e) := by
  induction stem with
  | nil => simp [splitLastDot, splitLastDot_of_no_dot e he]
  | cons c cs ih => simp [splitLastDot, ih]

theorem withSuffix_append_ext (stem e ext : String) (hs : stem ≠ "")
    (he : e ≠ "") (hd : '.' ∉ e.data) :
    withSuffix (stem ++ "." ++ e) ext = stem ++ ext := by
  have hdata : (stem ++ "." ++ e).data = stem.data ++ '.' :: e.data := by
    rw [string_data_append, string_data_append]
    simp
  have hstem : stem.data ≠ [] := fun hn => hs (string_of_data_nil stem hn)
  have hsuf : e.data ≠ [] := fun hn => he (string_of_data_nil e hn)
  unfold withSuffix
  rw [hdata, splitLastDot_append _ _ hd]
  simp [hstem, hsuf, string_mk_data]

/-! Claim theorems. -/

/-- C1: the spec's lossy-to-lossy 10%-tolerance rule claims a source whose
codec is in {mp3, aac, opus, wma, ogg} is copied when its bitrate is within
10% of the target; the code's source list (converter.py line 137) reads
`['mp3', 'aac', 'mp3', 'wma', 'ogg']` — `'mp3'` duplicated where the
parallel target list has `'opus'` — so an opus source falls through to the
catch-all and is always converted, here at 96000 bps against mp3 at
96 kbps (0% difference). -/
theorem c1_opus_source_always_converted :
    needs_conversion ⟨"opus", some 96000, none, none, none⟩ "mp3" 96 = true ∧
    "opus" ∉ lossySourceCodecs ∧ "opus" ∈ lossyTargetCodecs ∧
    "mp3" ∈ lossySourceCodecs := by decide

/-- C2: the claim says dry-run performs probing and the decision only, with
no encode, no byte copy and no metadata write; but `main` submits
`process_file` unconditionally (music-converter.py line 122), which here —
with `dry_run = true`, an mp3/320kbps source and target mp3@192 — still
runs the ffmpeg encode that writes the output file under the target
directory; only the metadata step is suppressed. -/
theorem c2_dry_run_still_invokes_ffmpeg :
    (mainHandleFile true
      { probe := Except.ok ⟨"mp3", some 320000, some 44100, none, some 2⟩,
        input_size := 1000, mkdir_error := none, ffmpeg_ok := true,
        copy_ok := true, output_size := 400 }
      ["music"] ["music-converted"] ["album"] "song.mp3" "mp3" 192).2
      = [Effect.probeInput, Effect.mkdirOutputParent, Effect.runFfmpegEncode] ∧
    (mainHandleFile true
      { probe := Except.ok ⟨"mp3", some 320000, some 44100, none, some 2⟩,
        input_size := 1000, mkdir_error := none, ffmpeg_ok := true,
        copy_ok := true, output_size := 400 }
      ["music"] ["music-converted"] ["album"] "song.mp3" "mp3" 192).1.action
      = Action.converted := by decide

/-- C3: when the lowercased source codec equals the lowercased target
codec, `needs_conversion` returns convert exactly when the source bitrate
(0 when absent) strictly exceeds `target_bitrate * 1000`; when it is
smaller or equal the file is copied. -/
theorem c3_same_codec_policy (audio_info : AudioInfo) (target_codec : String)
    (target_bitrate : Nat)
    (h : pyLower audio_info.codec = pyLower target_codec) :
    needs_conversion audio_info target_codec target_bitrate = true ↔
      target_bitrate * 1000 < audio_info.bitrate.getD 0 := by
  simp only [needs_conversion, h, ne_eq, not_true_eq_false, if_false]
  split_ifs with h1 h2 <;> simp_all

theorem c3_same_codec_policy_witness :
    needs_conversion ⟨"mp3", some 320000, none, none, none⟩ "MP3" 192 = true ↔
      192 * 1000 < (some 320000 : Option Nat).getD 0 :=
  c3_same_codec_policy ⟨"mp3", some 320000, none, none, none⟩ "MP3" 192 (by decide)

/-- C4: counterexample to the claim that flac→flac is always copied
whatever the reported bitrate: a flac source whose reported bitrate
(1000000 bps) exceeds the 192 kbps target is converted, because the
same-codec branch compares bitrates with no flac special case
(converter.py lines 152-161). -/
theorem c4_flac_nonzero_bitrate_reencoded :
    needs_conversion ⟨"flac", some 1000000, none, none, none⟩ "flac" 192 = true := by
  decide

/-- C4 (amended): for a flac source and flac target, `needs_conversion`
converts exactly when the reported source bitrate (0 when absent) strictly
exceeds `target_bitrate * 1000`; in particular an unknown or zero bitrate
is always copied. -/
theorem c4_flac_same_codec_bitrate_rule (br sr ch : Option Nat) (d : Option Rat)
    (b : Nat) :
    needs_conversion ⟨"flac", br, sr, d, ch⟩ "flac" b =
      decide (b * 1000 < br.getD 0) := by
  simp only [needs_conversion, ne_eq, not_true_eq_false, if_false]
  split_ifs with h1 h2 <;> simp_all

/-- C5: counterexample to the claim that an mp3 source at 195000 bps is
copied for target mp3@192: source and target codec are equal, so the
10%-tolerance branch is never reached and 195000 > 192000 forces a
conversion. -/
theorem c5_mp3_195k_not_copied :
    needs_conversion ⟨"mp3", some 195000, none, none, none⟩ "mp3" 192 = true := by
  decide

/-- C5 (amended): for source mp3/195000 bps and target mp3@192 kbps,
`needs_conversion` chooses convert — the 10% tolerance applies only when
the codecs differ, and 192 * 1000 < 195000. -/
theorem c5_mp3_195k_converted :
    needs_conversion ⟨"mp3", some 195000, none, none, none⟩ "mp3" 192 = true ∧
      192 * 1000 < 195000 := by decide

/-- C6: `process_file` is total on every environment outcome (every raised
exception is caught), and whenever the returned result's action is
`error`, its `target_size` is 0 and its `error_message` is a non-empty
string. -/
theorem c6_process_file_error_contract (env : FsEnv) (sd td rd : List String)
    (file_name target_codec : String) (target_bitrate : Nat)
    (h : (process_file env sd td rd file_name target_codec target_bitrate).1.action
          = Action.error) :
    (process_file env sd td rd file_name target_codec target_bitrate).1.target_size
        = 0 ∧
    ∃ m, (process_file env sd td rd file_name target_codec target_bitrate).1.error_message
          = some m ∧ m ≠ "" := by
  rcases hp : env.probe with e | info
  · simp [process_file, hp]
    exact pyError_message_ne_empty e
  · rcases hm : env.mkdir_error with _ | e
    · by_cases hnc : needs_conversion info target_codec target_bitrate
      · cases hf : env.ffmpeg_ok
        · simp [process_file, hp, hm, hnc, hf]
        · simp [process_file, hp, hm, hnc, hf] at h
      · cases hc : env.copy_ok
        · simp [process_file, hp, hm, hnc, hc]
        · simp [process_file, hp, hm, hnc, hc] at h
    · simp [process_file, hp, hm]
      exact pyError_message_ne_empty e

theorem c6_process_file_error_contract_witness :
    (process_file
      { probe := Except.error PyError.noAudioStream, input_size := 5,
        mkdir_error := none, ffmpeg_ok := true, copy_ok := true, output_size := 0 }
      ["music"] ["out"] [] "x.mp3" "mp3" 192).1.target_size = 0 ∧
    ∃ m, (process_file
      { probe := Except.error PyError.noAudioStream, input_size := 5,
        mkdir_error := none, ffmpeg_ok := true, copy_ok := true, output_size := 0 }
      ["music"] ["out"] [] "x.mp3" "mp3" 192).1.error_message = some m ∧ m ≠ "" :=
  c6_process_file_error_contract _ _ _ _ _ _ _ (by decide)

/-- C7: on any non-empty result list, `get_statistics` returns the record
whose per-action counts sum to the total, whose `space_saved` is
`sum(source_size) - sum(target_size)`, and whose `space_saved_percentage`
is `space_saved / sum(source_size) * 100` (the int 0 when
`sum(source_size)` is 0). -/
theorem c7_get_statistics_correct (results : List ConversionResult)
    (h : results ≠ []) :
    get_statistics results =
      [("total", StatVal.int results.length),
       ("converted", StatVal.int (countConverted results)),
       ("copied", StatVal.int (countCopied results)),
       ("errors", StatVal.int (countErrors results)),
       ("total_source_size", StatVal.int (totalSourceSize results)),
       ("total_target_size", StatVal.int (totalTargetSize results)),
       ("space_saved",
        StatVal.int ((totalSourceSize results : Int) - (totalTargetSize results : Int))),
       ("space_saved_percentage",
        if 0 < totalSourceSize results then
          StatVal.rat
            ((((totalSourceSize results : Int) - (totalTargetSize results : Int) : Int) : Rat)
              / (totalSourceSize results : Rat) * 100)
        else StatVal.int 0)] ∧
    countConverted results + countCopied results + countErrors results =
      results.length :=
  ⟨by simp [get_statistics, h], counts_sum results⟩

theorem c7_get_statistics_correct_witness :
    get_statistics
      [⟨⟨[], "a.mp3"⟩, ⟨[], "a.mp3"⟩, Action.converted, 100, 40, none, none⟩] =
      [("total", StatVal.int 1),
       ("converted", StatVal.int (countConverted
         [⟨⟨[], "a.mp3"⟩, ⟨[], "a.mp3"⟩, Action.converted, 100, 40, none, none⟩])),
       ("copied", StatVal.int (countCopied
         [⟨⟨[], "a.mp3"⟩, ⟨[], "a.mp3"⟩, Action.converted, 100, 40, none, none⟩])),
       ("errors", StatVal.int (countErrors
         [⟨⟨[], "a.mp3"⟩, ⟨[], "a.mp3"⟩, Action.converted, 100, 40, none, none⟩])),
       ("total_source_size", StatVal.int (totalSourceSize
         [⟨⟨[], "a.mp3"⟩, ⟨[], "a.mp3"⟩, Action.converted, 100, 40, none, none⟩])),
       ("total_target_size", StatVal.int (totalTargetSize
         [⟨⟨[], "a.mp3"⟩, ⟨[], "a.mp3"⟩, Action.converted, 100, 40, none, none⟩])),
       ("space_saved", StatVal.int ((totalSourceSize
         [⟨⟨[], "a.mp3"⟩, ⟨[], "a.mp3"⟩, Action.converted, 100, 40, none, none⟩] : Int)
         - (totalTargetSize
         [⟨⟨[], "a.mp3"⟩, ⟨[], "a.mp3"⟩, Action.converted, 100, 40, none, none⟩] : Int))),
       ("space_saved_percentage",
        if 0 < totalSourceSize
            [⟨⟨[], "a.mp3"⟩, ⟨[], "a.mp3"⟩, Action.converted, 100, 40, none, none⟩] then
          StatVal.rat ((((totalSourceSize
            [⟨⟨[], "a.mp3"⟩, ⟨[], "a.mp3"⟩, Action.converted, 100, 40, none, none⟩] : Int)
            - (totalTargetSize
            [⟨⟨[], "a.mp3"⟩, ⟨[], "a.mp3"⟩, Action.converted, 100, 40, none, none⟩] : Int) : Int) : Rat)
            / ((totalSourceSize
            [⟨⟨[], "a.mp3"⟩, ⟨[], "a.mp3"⟩, Action.converted, 100, 40, none, none⟩] : Nat) : Rat) * 100)
        else StatVal.int 0)] ∧
    countConverted
        [⟨⟨[], "a.mp3"⟩, ⟨[], "a.mp3"⟩, Action.converted, 100, 40, none, none⟩]
      + countCopied
        [⟨⟨[], "a.mp3"⟩, ⟨[], "a.mp3"⟩, Action.converted, 100, 40, none, none⟩]
      + countErrors
        [⟨⟨[], "a.mp3"⟩, ⟨[], "a.mp3"⟩, Action.converted, 100, 40, none, none⟩]
      = 1 :=
  c7_get_statistics_correct
    [⟨⟨[], "a.mp3"⟩, ⟨[], "a.mp3"⟩, Action.converted, 100, 40, none, none⟩]
    (by decide)

/-- C8: `build_ffmpeg_command` deterministically returns, per lowercased
target codec, exactly the documented argument vector — beginning with
`ffmpeg -i <input> -y`, containing `-map_metadata 0`, ending with the
output path, with the codec-specific settings (mp3: libmp3lame at the
requested bitrate; aac: aac plus `-c:v copy`, `-movflags +faststart`,
`-f mp4`; flac: compression level 8; opus: libopus) — and fails with the
unsupported-codec error for any other codec. -/
theorem c8_build_ffmpeg_command_correct
    (input_path output_path target_codec : String) (target_bitrate : Nat) :
    (pyLower target_codec = "mp3" →
      build_ffmpeg_command input_path output_path target_codec target_bitrate =
        Except.ok ["ffmpeg", "-i", input_path, "-y", "-c:a", "libmp3lame", "-b:a",
          toString target_bitrate ++ "k", "-map_metadata", "0", output_path]) ∧
    (pyLower target_codec = "aac" →
      build_ffmpeg_command input_path output_path target_codec target_bitrate =
        Except.ok ["ffmpeg", "-i", input_path, "-y", "-c:a", "aac", "-b:a",
          toString target_bitrate ++ "k", "-c:v", "copy", "-map_metadata", "0",
          "-movflags", "+faststart", "-f", "mp4", output_path]) ∧
    (pyLower target_codec = "flac" →
      build_ffmpeg_command input_path output_path target_codec target_bitrate =
        Except.ok ["ffmpeg", "-i", input_path, "-y", "-c:a", "flac",
          "-compression_level", "8", "-map_metadata", "0", output_path]) ∧
    (pyLower target_codec = "opus" →
      build_ffmpeg_command input_path output_path target_codec target_bitrate =
        Except.ok ["ffmpeg", "-i", input_path, "-y", "-c:a", "libopus", "-b:a",
          toString target_bitrate ++ "k", "-map_metadata", "0", output_path]) ∧
    (pyLower target_codec ∉ (["mp3", "aac", "flac", "opus"] : List String) →
      build_ffmpeg_command input_path output_path target_codec target_bitrate =
        Except.error ("Unsupported target codec: " ++ target_codec)) ∧
    (∀ cmd, build_ffmpeg_command input_path output_path target_codec target_bitrate =
        Except.ok cmd →
      cmd.take 4 = ["ffmpeg", "-i", input_path, "-y"] ∧
      (∃ l1 l2, cmd = l1 ++ ["-map_metadata", "0"] ++ l2) ∧
      cmd.getLast? = some output_path) := by
  have hmp3 : pyLower target_codec = "mp3" →
      build_ffmpeg_command input_path output_path target_codec target_bitrate =
        Except.ok ["ffmpeg", "-i", input_path, "-y", "-c:a", "libmp3lame", "-b:a",
          toString target_bitrate ++ "k", "-map_metadata", "0", output_path] := by
    intro h; simp [build_ffmpeg_command, h]
  have haac : pyLower target_codec = "aac" →
      build_ffmpeg_command input_path output_path target_codec target_bitrate =
        Except.ok ["ffmpeg", "-i", input_path, "-y", "-c:a", "aac", "-b:a",
          toString target_bitrate ++ "k", "-c:v", "copy", "-map_metadata", "0",
          "-movflags", "+faststart", "-f", "mp4", output_path] := by
    intro h; simp [build_ffmpeg_command, h]
  have hflac : pyLower target_codec = "flac" →
      build_ffmpeg_command input_path output_path target_codec target_bitrate =
        Except.ok ["ffmpeg", "-i", input_path, "-y", "-c:a", "flac",
          "-compression_level", "8", "-map_metadata", "0", output_path] := by
    intro h; simp [build_ffmpeg_command, h]
  have hopus : pyLower target_codec = "opus" →
      build_ffmpeg_command input_path output_path target_codec target_bitrate =
        Except.ok ["ffmpeg", "-i", input_path, "-y", "-c:a", "libopus", "-b:a",
          toString target_bitrate ++ "k", "-map_metadata", "0", output_path] := by
    intro h; simp [build_ffmpeg_command, h]
  have herr : pyLower target_codec ∉ (["mp3", "aac", "flac", "opus"] : List String) →
      build_ffmpeg_command input_path output_path target_codec target_bitrate =
        Except.error ("Unsupported target codec: " ++ target_codec) := by
    intro h
    simp only [List.mem_cons, List.mem_singleton, not_or] at h
    obtain ⟨h1, h2, h3, h4, _⟩ := h
    simp [build_ffmpeg_command, h1, h2, h3, h4]
  refine ⟨hmp3, haac, hflac, hopus, herr, ?_⟩
  intro cmd hc
  by_cases h1 : pyLower target_codec = "mp3"
  · rw [hmp3 h1] at hc
    cases hc
    exact ⟨rfl,
      ⟨["ffmpeg", "-i", input_path, "-y", "-c:a", "libmp3lame", "-b:a",
        toString target_bitrate ++ "k"], [output_path], rfl⟩, rfl⟩
  by_cases h2 : pyLower target_codec = "aac"
  · rw [haac h2] at hc
    cases hc
    exact ⟨rfl,
      ⟨["ffmpeg", "-i", input_path, "-y", "-c:a", "aac", "-b:a",
        toString target_bitrate ++ "k", "-c:v", "copy"],
       ["-movflags", "+faststart", "-f", "mp4", output_path], rfl⟩, rfl⟩
  by_cases h3 : pyLower target_codec = "flac"
  · rw [hflac h3] at hc
    cases hc
    exact ⟨rfl,
      ⟨["ffmpeg", "-i", input_path, "-y", "-c:a", "flac", "-compression_level", "8"],
       [output_path], rfl⟩, rfl⟩
  by_cases h4 : pyLower target_codec = "opus"
  · rw [hopus h4] at hc
    cases hc
    exact ⟨rfl,
      ⟨["ffmpeg", "-i", input_path, "-y", "-c:a", "libopus", "-b:a",
        toString target_bitrate ++ "k"], [output_path], rfl⟩, rfl⟩
  · rw [herr (by simp [h1, h2, h3, h4])] at hc
    cases hc

theorem c8_build_ffmpeg_command_correct_witness :
    build_ffmpeg_command "in.flac" "out.m4a" "AAC" 192 =
      Except.ok ["ffmpeg", "-i", "in.flac", "-y", "-c:a", "aac", "-b:a",
        toString (192 : Nat) ++ "k", "-c:v", "copy", "-map_metadata", "0",
        "-movflags", "+faststart", "-f", "mp4", "out.m4a"] ∧
    build_ffmpeg_command "in.flac" "out.wav" "wav" 192 =
      Except.error ("Unsupported target codec: " ++ "wav") :=
  ⟨(c8_build_ffmpeg_command_correct "in.flac" "out.m4a" "AAC" 192).2.1 (by decide),
   (c8_build_ffmpeg_command_correct "in.flac" "out.wav" "wav" 192).2.2.2.2.1 (by decide)⟩

/-- C9: for an input `stem.e` under the source root with relative
directories `rd` and a supported target codec, the output path computed by
`process_file` is the target root followed by the same relative
directories, with the file's extension replaced by exactly the mapped
extension (mp3→.mp3, aac→.m4a, flac→.flac, opus→.opus). -/
theorem c9_output_path_correct (env : FsEnv) (info : AudioInfo)
    (sd td rd : List String) (stem e target_codec ext : String) (b : Nat)
    (hp : env.probe = Except.ok info) (hm : env.mkdir_error = none)
    (hs : stem ≠ "") (he : e ≠ "") (hd : '.' ∉ e.data)
    (hx : FORMAT_EXTENSIONS.lookup (pyLower target_codec) = some ext) :
    (process_file env sd td rd (stem ++ "." ++ e) target_codec b).1.target_path
      = ⟨td ++ rd, stem ++ ext⟩ ∧
    FORMAT_EXTENSIONS.lookup "mp3" = some ".mp3" ∧
    FORMAT_EXTENSIONS.lookup "aac" = some ".m4a" ∧
    FORMAT_EXTENSIONS.lookup "flac" = some ".flac" ∧
    FORMAT_EXTENSIONS.lookup "opus" = some ".opus" := by
  refine ⟨?_, by decide, by decide, by decide, by decide⟩
  simp [process_file, hp, hm, hx, withSuffix_append_ext stem e ext hs he hd]

theorem c9_output_path_correct_witness :
    (process_file
      { probe := Except.ok ⟨"flac", some 900000, none, none, none⟩, input_size := 10,
        mkdir_error := none, ffmpeg_ok := true, copy_ok := true, output_size := 5 }
      ["music"] ["music-converted"] ["rock"]
      ("song" ++ "." ++ "flac") "AAC" 192).1.target_path
      = ⟨["music-converted", "rock"], "song.m4a"⟩ ∧
    FORMAT_EXTENSIONS.lookup "mp3" = some ".mp3" ∧
    FORMAT_EXTENSIONS.lookup "aac" = some ".m4a" ∧
    FORMAT_EXTENSIONS.lookup "flac" = some ".flac" ∧
    FORMAT_EXTENSIONS.lookup "opus" = some ".opus" :=
  c9_output_path_correct _ ⟨"flac", some 900000, none, none, none⟩
    ["music"] ["music-converted"] ["rock"] "song" "flac" "AAC" ".m4a" 192
    rfl rfl (by decide) (by decide) (by decide) (by decide)

/-- C10: on the empty result collection `get_statistics` returns the empty
dict, with no keys at all; the CLI layer compensates by building the
zero-valued record itself (music-converter.py lines 178-193). -/
theorem c10_empty_statistics :
    get_statistics [] = [] ∧
    mainStats [] = cliZeroStats ∧
    cliZeroStats = [("total", StatVal.int 0), ("converted", StatVal.int 0),
      ("copied", StatVal.int 0), ("errors", StatVal.int 0),
      ("total_source_size", StatVal.int 0), ("total_target_size", StatVal.int 0),
      ("space_saved", StatVal.int 0), ("space_saved_percentage", StatVal.int 0)] := by
  decide

end MusicConverterCli
